import Mathlib

/-!
Shallow embedding of the modecache cache-through coordination layer
(github.com/wheat-os/modecache), covering the parts of the code the
verified claims are about:

* the Box data model and its JSON codec (modecache.go: AbcBox, SetStore,
  GetStore, with sonic marshal/unmarshal modelled at the JSON-value level,
  field-by-field, with the encoding/json-compatible semantics that
  sonic.Unmarshal implements: keys matched to fields by exact name first
  and ASCII-case-insensitively second, unknown keys ignored, a
  type-mismatched field a decode error);
* the controller's source-side loader closure (modecache.go:
  buildTryLoadingQuery), with the outcome of the inner query, the outcome
  of the cache write and the nil test supplied as oracles;
* the three policies (EasyPloy, ReuseCachePloyIgnoreError,
  FirstCachePolyIgnoreError), translated body-by-body.  The single-flight
  wrapper sg.Do runs its function and hands back that function's result,
  so in the sequential semantics it is the identity and is elided; the
  loader closures are supplied as oracles, and each policy run records,
  besides its result, the list of synchronous source invocations (with the
  ttl each one was given) and the background refresh task it spawned, if
  any.

Values of the controller's type parameter T are a Lean type variable V;
Go's `any`-typed store payloads become an explicit sum so that the type
assertions in GetStore are modelled faithfully.  Machine integers
(int64 nanosecond durations, Unix-second timestamps) are Int; the
quantities involved stay far below 2^63 so overflow is not modelled.
-/

namespace Modecache

/-- Error kinds exposed at the boundary (modecache.go vars block).  The
code only ever branches on whether an error is nil, never on which error
it is, so a simple enumeration with distinguished source/transport codes
suffices. -/
inductive Err where
  | keyNonExistent
  | unpacking
  | nilValue
  | circuitOpen
  | source (code : Nat)
  | transport (code : Nat)
deriving DecidableEq

/-- JSON values, the target of the Box codec (sonic is API-compatible
with encoding/json).  Numbers are integers here: the only numeric field
of a Box is the integer Timestamp. -/
inductive Json where
  | num (n : Int)
  | str (s : String)
  | bool (b : Bool)
  | null
  | arr (xs : List Json)
  | obj (fields : List (String × Json))

/-- AbcBox (modecache.go:44-47): the canonical in-cache record, a value
together with its creation time in Unix seconds. -/
structure AbcBox (V : Type) where
  Timestamp : Int
  T : V
deriving DecidableEq

/-- KeepTTL sentinel (modecache.go:16): ttl value meaning "no store-layer
expiry". -/
def KeepTTL : Int := -1

/-- Truncation of time.Duration.Seconds() to int64, as the policies
compute it: the duration is int64 nanoseconds and the float division by
1e9 truncates to whole seconds.  For the nonnegative durations the
policies are constructed with, all integer-division conventions agree. -/
def durSeconds (d : Int) : Int := d / 1000000000

/-- A payload held by a store under a key.  Go stores hold `any`: a
direct store receives a *AbcBox[T], a serializing store receives a JSON
string (modelled at the JSON-value level), and anything else a caller
might have put there is `other`, so that the type assertions in GetStore
have their failure branches. -/
inductive Payload (V : Type) where
  | box (b : AbcBox V)
  | jstr (j : Json)
  | other

/-- Store contents: an association list from keys to payloads, newest
first.  TTLs are recorded nowhere because no time passes between the
writes and reads the claims compare (the claims hold "while the store
retains the entry"). -/
def StoreState (V : Type) := List (String × Payload V)

/-- Store.Set contract: overwrite the payload under the key.  The ttl
hint is not modelled (see StoreState). -/
def storeSet {V : Type} (st : StoreState V) (k : String) (p : Payload V) (_ttl : Int) :
    StoreState V :=
  (k, p) :: st

/-- Store.Get contract: the payload previously stored under the key, or
ErrKeyNonExistent. -/
def storeGet {V : Type} : StoreState V → String → Except Err (Payload V)
  | [], _ => .error .keyNonExistent
  | (k2, p) :: rest, k => if k = k2 then .ok p else storeGet rest k

/-- A controller instance (CacheCtr[T]) as the codec-relevant record:
whether its store is direct, the per-type JSON encoder and decoder that
sonic derives for T, and the zero value *new(T). -/
structure Ctr (V : Type) where
  isDirect : Bool
  encT : V → Json
  decT : Json → Option V
  dflt : V

/-- Marshalling of an AbcBox (sonic.MarshalString in SetStore): a JSON
object with the two fields in struct order, Timestamp then T. -/
def marshalBox {V : Type} (encT : V → Json) (b : AbcBox V) : Json :=
  Json.obj [("Timestamp", Json.num b.Timestamp), ("T", encT b.T)]

/-- ASCII case folding of one character, as encoding/json's foldName
performs it: an ASCII upper-case letter becomes lower case, every other
character is left alone. -/
def foldChar (c : Char) : Char :=
  if 'A' ≤ c ∧ c ≤ 'Z' then Char.ofNat (c.toNat + 32) else c

/-- ASCII case folding of a field name (encoding/json's foldName):
incoming keys are compared to struct field names under this fold when no
exact match exists. -/
def foldName (s : String) : String :=
  ⟨s.data.map foldChar⟩

example : foldName "TIMESTAMP" = "timestamp" := rfl

example : foldName "tImEsTaMp" = "timestamp" := rfl

/-- One step of unmarshalling into an AbcBox: set the named field.
encoding/json (and sonic) semantics: an incoming key is matched to a
struct field by exact name first, and failing that by an
ASCII-case-insensitive comparison (foldName); a type-mismatched value is
an error, and a key matching neither field is ignored. -/
def setBoxField {V : Type} (decT : Json → Option V) (b : AbcBox V) (name : String)
    (j : Json) : Option (AbcBox V) :=
  if name = "Timestamp" then
    match j with
    | Json.num n => some { b with Timestamp := n }
    | _ => none
  else if name = "T" then
    (decT j).map (fun v => { b with T := v })
  else if foldName name = "timestamp" then
    match j with
    | Json.num n => some { b with Timestamp := n }
    | _ => none
  else if foldName name = "t" then
    (decT j).map (fun v => { b with T := v })
  else
    some b

/-- Fold the fields of a JSON object into an AbcBox, later fields
overwriting earlier ones, as encoding/json does. -/
def unmarshalFields {V : Type} (decT : Json → Option V) :
    AbcBox V → List (String × Json) → Option (AbcBox V)
  | b, [] => some b
  | b, (name, j) :: rest =>
    match setBoxField decT b name j with
    | some b2 => unmarshalFields decT b2 rest
    | none => none

/-- Unmarshalling of an AbcBox (sonic.Unmarshal into `new(AbcBox[T])` in
GetStore): the target starts as the zero box, a non-object document is an
error. -/
def unmarshalBox {V : Type} (decT : Json → Option V) (dflt : V) : Json →
    Option (AbcBox V)
  | Json.obj fields => unmarshalFields decT ⟨0, dflt⟩ fields
  | _ => none

/-- SetStore (modecache.go:85-108): box the value with the current Unix
time and write it, directly for a direct store and serialized otherwise.
The in-memory store model cannot fail, so the function is total; a
failing store write is modelled at the loader level, where the code
discards it. -/
def SetStore {V : Type} (c : Ctr V) (st : StoreState V) (k : String) (v : V)
    (ttl : Int) (now : Int) : StoreState V :=
  let box : AbcBox V := { T := v, Timestamp := now }
  if c.isDirect then
    storeSet st k (Payload.box box) ttl
  else
    storeSet st k (Payload.jstr (marshalBox c.encT box)) ttl

/-- GetStore (modecache.go:111-142): read the payload, undo the boxing.
Every failure path returns the zero value of T and timestamp 0 together
with the error, exactly as the Go returns `*new(T), 0, err`. -/
def GetStore {V : Type} (c : Ctr V) (st : StoreState V) (k : String) :
    V × Int × Option Err :=
  match storeGet st k with
  | .error e => (c.dflt, 0, some e)
  | .ok p =>
    if c.isDirect then
      match p with
      | .box b => (b.T, b.Timestamp, none)
      | _ => (c.dflt, 0, some .unpacking)
    else
      match p with
      | .jstr j =>
        match unmarshalBox c.decT c.dflt j with
        | some b => (b.T, b.Timestamp, none)
        | none => (c.dflt, 0, some .unpacking)
      | _ => (c.dflt, 0, some .unpacking)

/-- A concrete controller over Int with the faithful integer codec, used
to evaluate the theorems on concrete inputs. -/
def intCtr (direct : Bool) : Ctr Int where
  isDirect := direct
  encT := Json.num
  decT := fun j => match j with | Json.num n => some n | _ => none
  dflt := 0

example : GetStore (intCtr false)
    (SetStore (intCtr false) [] "k" 42 KeepTTL 1700000000) "k" =
    (42, 1700000000, none) := rfl

example : GetStore (intCtr true)
    (SetStore (intCtr true) [] "k" 42 5 1700000000) "k" =
    (42, 1700000000, none) := rfl

example : GetStore (intCtr true) [] "k" = (0, 0, some Err.keyNonExistent) := rfl

example : unmarshalBox (intCtr false).decT 0
    (Json.obj [("Timestamp", Json.num 5), ("T", Json.num 1), ("timestamp", Json.num 9)])
    = some { Timestamp := 9, T := 1 } := rfl

example : unmarshalBox (intCtr false).decT 0
    (Json.obj [("t", Json.num 4), ("TIMESTAMP", Json.num 8)])
    = some { Timestamp := 8, T := 4 } := rfl

/-- Observation of the timestamp recorded inside a stored payload: the
Timestamp field of a direct box, or the value of the "Timestamp" field of
a serialized object. -/
def payloadTimestamp {V : Type} : Payload V → Option Int
  | .box b => some b.Timestamp
  | .jstr (Json.obj fields) =>
    (fields.lookup "Timestamp").bind fun j =>
      match j with
      | Json.num n => some n
      | _ => none
  | _ => none

/-- The background refresh task the First policy may spawn
(part_001:407-415): the goroutine calls loadingQuery with this ttl, on a
context derived from the caller's with cancellation stripped
(context.WithoutCancel, recorded as inheritsCancel = false) and a
deadline of timeout nanoseconds (context.WithTimeout with the policy's
expireTime); its result is discarded. -/
structure RefreshTask where
  ttl : Int
  timeout : Int
  inheritsCancel : Bool
deriving DecidableEq

/-- One run of a policy body: the (value, error) it hands back to Wrap,
the ttls of the synchronous loadingQuery invocations it made, in order,
and the background refresh it spawned, if any. -/
structure PolicyRun (V : Type) where
  result : Except Err V
  sourceCalls : List Int
  refresh : Option RefreshTask

/-- EasyPloy (part_001:322-340).  Inputs: the outcome of the single
loadingCache call (value and timestamp, or error) and the loadingQuery
oracle as a function of the ttl it would be invoked with. -/
def EasyPloy {V : Type} (ttl : Int) (cacheRes : Except Err (V × Int))
    (queryRes : Int → Except Err V) : PolicyRun V :=
  match cacheRes with
  | .ok (value, _) => { result := .ok value, sourceCalls := [], refresh := none }
  | .error _ => { result := queryRes ttl, sourceCalls := [ttl], refresh := none }

/-- ReuseCachePloyIgnoreError (part_001:346-377).  On a cache hit the
age test compares whole Unix seconds against the truncated seconds of
expireTime; an expired hit falls back to the remembered cache value when
the source fails (isReuse). -/
def ReuseCachePloyIgnoreError {V : Type} (expireTime : Int) (now : Int)
    (cacheRes : Except Err (V × Int)) (queryRes : Int → Except Err V) : PolicyRun V :=
  match cacheRes with
  | .ok (result, timestamp) =>
    if now - timestamp < durSeconds expireTime then
      { result := .ok result, sourceCalls := [], refresh := none }
    else
      match queryRes KeepTTL with
      | .ok v => { result := .ok v, sourceCalls := [KeepTTL], refresh := none }
      | .error _ => { result := .ok result, sourceCalls := [KeepTTL], refresh := none }
  | .error _ => { result := queryRes KeepTTL, sourceCalls := [KeepTTL], refresh := none }

/-- FirstCachePolyIgnoreError (part_001:383-425).  A fresh hit returns
the value; an expired hit returns the stale value immediately and, when
the CRC-32 shard try-lock is acquired, spawns the detached refresh task;
a miss or cache error degrades to a synchronous source call with
ttl = KeepTTL whose result is returned as-is.  Whether the try-lock is
acquired is an input (it depends on concurrent runs). -/
def FirstCachePolyIgnoreError {V : Type} (expireTime : Int) (now : Int)
    (tryLockAcquired : Bool) (cacheRes : Except Err (V × Int))
    (queryRes : Int → Except Err V) : PolicyRun V :=
  match cacheRes with
  | .ok (result, timestamp) =>
    if now - timestamp < durSeconds expireTime then
      { result := .ok result, sourceCalls := [], refresh := none }
    else if tryLockAcquired then
      { result := .ok result, sourceCalls := [],
        refresh := some { ttl := KeepTTL, timeout := expireTime, inheritsCancel := false } }
    else
      { result := .ok result, sourceCalls := [], refresh := none }
  | .error _ => { result := queryRes KeepTTL, sourceCalls := [KeepTTL], refresh := none }

/-- The tail of Wrap (modecache.go:155-164): a policy error is returned
with the zero value of T, a policy value is handed back after the typed
downcast (which cannot fail in this typed model). -/
def wrapResult {V : Type} (dflt : V) (r : Except Err V) : V × Option Err :=
  match r with
  | .ok v => (v, none)
  | .error e => (dflt, some e)

/-- One run of the source-side loader closure built by
buildTryLoadingQuery (modecache.go:194-221): the final (value, error),
whether SetStore was invoked, and the log entries the closure emitted. -/
structure QueryLoadRun (V : Type) where
  result : Except Err V
  setStoreCalled : Bool
  logs : List String

/-- The loader closure of buildTryLoadingQuery (modecache.go:195-208),
with the outcome of the caller-supplied query, the outcome of the
SetStore call (the store write may fail in transport) and the reflective
nil test supplied as oracles.  The code discards the SetStore error with
a blank assign and contains no log statement, so the run ignores
setStoreRes and emits no logs. -/
def buildTryLoadingQuery {V : Type} (queryRes : Except Err V)
    (_setStoreRes : Option Err) (isNilV : V → Bool) : QueryLoadRun V :=
  match queryRes with
  | .error e => { result := .error e, setStoreCalled := false, logs := [] }
  | .ok value =>
    if isNilV value then
      { result := .error .nilValue, setStoreCalled := true, logs := [] }
    else
      { result := .ok value, setStoreCalled := true, logs := [] }

/-- Observation of the timestamp recorded in the store under a key:
none when the key is absent or carries no readable timestamp. -/
def storedTimestamp {V : Type} (st : StoreState V) (k : String) : Option Int :=
  match storeGet st k with
  | .ok p => payloadTimestamp p
  | .error _ => none

/-- Monotonicity bridge between the claims' age condition, stated on
durations in nanoseconds, and the whole-second comparison the policies
compute: an age of a whole seconds that is at least d nanoseconds is at
least the truncated seconds of d. -/
theorem durSeconds_le_of_ns_le {d a : Int} (h : d ≤ a * 1000000000) :
    durSeconds d ≤ a := by
  have h2 : d / 1000000000 ≤ a * 1000000000 / 1000000000 :=
    Int.ediv_le_ediv (by norm_num) h
  simpa [durSeconds, Int.mul_ediv_cancel a (by norm_num : (1000000000 : Int) ≠ 0)] using h2

example :
    (ReuseCachePloyIgnoreError 1000000000 10 (Except.ok ((7 : Int), 5))
      (fun _ => Except.error (Err.source 0))).result = Except.ok 7 := rfl

example :
    (FirstCachePolyIgnoreError 1000000000 10 true (Except.ok ((7 : Int), 5))
      (fun _ => Except.error (Err.source 0))).refresh =
      some { ttl := KeepTTL, timeout := 1000000000, inheritsCancel := false } := rfl

example :
    (ReuseCachePloyIgnoreError 500000000 100 (Except.ok ((7 : Int), 100))
      (fun _ => Except.error (Err.source 0))).sourceCalls = [KeepTTL] := rfl

/-- Reading back the key just written yields the payload just stored. -/
theorem storeGet_storeSet_self {V : Type} (st : StoreState V) (k : String)
    (p : Payload V) (ttl : Int) : storeGet (storeSet st k p ttl) k = .ok p := by
  simp [storeGet, storeSet]

/-- The Box codec is symmetric whenever the codec of the payload type is:
unmarshalling the marshalled box restores both fields. -/
theorem unmarshal_marshal {V : Type} (decT : Json → Option V) (encT : V → Json)
    (dflt : V) (b : AbcBox V) (h : decT (encT b.T) = some b.T) :
    unmarshalBox decT dflt (marshalBox encT b) = some b := by
  simp [marshalBox, unmarshalBox, unmarshalFields, setBoxField, h]

/-- A trailing field whose name is not even a case-insensitive match of
"Timestamp" or "T" does not change the result of unmarshalling. -/
theorem unmarshalFields_unknown_snoc {V : Type} (decT : Json → Option V)
    (name : String) (j : Json) (h1 : foldName name ≠ "timestamp")
    (h2 : foldName name ≠ "t") (b : AbcBox V) (fs : List (String × Json)) :
    unmarshalFields decT b (fs ++ [(name, j)]) = unmarshalFields decT b fs := by
  have h1e : name ≠ "Timestamp" := fun he => h1 (by rw [he]; rfl)
  have h2e : name ≠ "T" := fun he => h2 (by rw [he]; rfl)
  induction fs generalizing b with
  | nil => simp [unmarshalFields, setBoxField, h1, h2, h1e, h2e]
  | cons hd tl ih =>
    cases hd with
    | mk n2 j2 =>
      simp only [List.cons_append, unmarshalFields]
      cases setBoxField decT b n2 j2 <;> simp [ih]

/-- C1: for the Reuse and First policies, when the cache holds a value
v0 whose age (now minus its timestamp, in whole seconds) is at least the
policy duration (expireTime nanoseconds) and the source call made for
this invocation fails, the policy returns v0 with a nil error — never the
source error — whatever the try-lock outcome. -/
theorem reuse_first_stale_on_source_error {V : Type} (expireTime now ts : Int)
    (v0 : V) (e : Err) (queryRes : Int → Except Err V) (tryLockAcquired : Bool)
    (hage : expireTime ≤ (now - ts) * 1000000000)
    (hq : queryRes KeepTTL = Except.error e) :
    (ReuseCachePloyIgnoreError expireTime now (Except.ok (v0, ts)) queryRes).result
      = Except.ok v0 ∧
    (FirstCachePolyIgnoreError expireTime now tryLockAcquired
      (Except.ok (v0, ts)) queryRes).result = Except.ok v0 := by
  have hstale : ¬(now - ts < durSeconds expireTime) :=
    not_lt.mpr (durSeconds_le_of_ns_le hage)
  refine ⟨?_, ?_⟩
  · simp [ReuseCachePloyIgnoreError, hstale, hq]
  · cases tryLockAcquired <;> simp [FirstCachePolyIgnoreError, hstale]

/-- C1 witness: a concrete stale hit (age 5 s, duration 1 s) with a
failing source returns the cached 7 under both policies. -/
theorem reuse_first_stale_on_source_error_witness :
    (ReuseCachePloyIgnoreError 1000000000 10 (Except.ok ((7 : Int), 5))
      (fun _ => Except.error (Err.source 0))).result = Except.ok 7 ∧
    (FirstCachePolyIgnoreError 1000000000 10 true (Except.ok ((7 : Int), 5))
      (fun _ => Except.error (Err.source 0))).result = Except.ok 7 :=
  reuse_first_stale_on_source_error 1000000000 10 5 7 (Err.source 0)
    (fun _ => Except.error (Err.source 0)) true (by norm_num) rfl

/-- C2 counterexample: with the sub-second duration D = 500 ms and a hit
of age 0 the age is strictly less than D, yet the Reuse policy invokes
the source-loader (the code compares whole seconds against the truncated
seconds of D, which is 0). -/
theorem fresh_subsecond_hit_calls_source_cex :
    ((0 : Int) * 1000000000 < 500000000) ∧
    (ReuseCachePloyIgnoreError 500000000 100 (Except.ok ((7 : Int), 100))
      (fun _ => Except.error (Err.source 0))).sourceCalls = [KeepTTL] :=
  ⟨by norm_num, rfl⟩

/-- C2 amended: for the Reuse and First policies, a cache hit is served
without any source invocation exactly when now minus its timestamp is
below the truncated whole-second value of D; for whole-second D this
coincides with the claim, while for fractional D hits with age in
[floor(D), D) are treated as expired and for sub-second D every hit is. -/
theorem fresh_hit_truncated_seconds {V : Type} (expireTime now ts : Int) (v : V)
    (queryRes : Int → Except Err V) (tryLockAcquired : Bool)
    (hfresh : now - ts < durSeconds expireTime) :
    ReuseCachePloyIgnoreError expireTime now (Except.ok (v, ts)) queryRes
      = { result := Except.ok v, sourceCalls := [], refresh := none } ∧
    FirstCachePolyIgnoreError expireTime now tryLockAcquired
      (Except.ok (v, ts)) queryRes
      = { result := Except.ok v, sourceCalls := [], refresh := none } := by
  exact ⟨by simp [ReuseCachePloyIgnoreError, hfresh],
    by simp [FirstCachePolyIgnoreError, hfresh]⟩

/-- C2 witness: with D = 2 s and age 1 s both policies return the cached
7 without touching the source. -/
theorem fresh_hit_truncated_seconds_witness :
    ReuseCachePloyIgnoreError 2000000000 6 (Except.ok ((7 : Int), 5))
      (fun _ => Except.error (Err.source 0))
      = { result := Except.ok 7, sourceCalls := [], refresh := none } ∧
    FirstCachePolyIgnoreError 2000000000 6 true (Except.ok ((7 : Int), 5))
      (fun _ => Except.error (Err.source 0))
      = { result := Except.ok 7, sourceCalls := [], refresh := none } :=
  fresh_hit_truncated_seconds 2000000000 6 5 7
    (fun _ => Except.error (Err.source 0)) true (by norm_num [durSeconds])

/-- C3: the Easy policy returns a cache hit unconditionally (any
timestamp) without invoking the source; on a cache miss or cache error it
invokes the source once with ttl = D and hands back exactly the source
outcome, so that on source failure Wrap returns the source error with the
zero value. -/
theorem easyPloy_spec {V : Type} (ttl ts : Int) (dflt v : V) (ce : Err)
    (queryRes : Int → Except Err V) :
    EasyPloy ttl (Except.ok (v, ts)) queryRes
      = { result := Except.ok v, sourceCalls := [], refresh := none } ∧
    EasyPloy ttl (Except.error ce) queryRes
      = { result := queryRes ttl, sourceCalls := [ttl], refresh := none } ∧
    ∀ e : Err, queryRes ttl = Except.error e →
      wrapResult dflt (EasyPloy ttl (Except.error ce) queryRes).result
        = (dflt, some e) := by
  refine ⟨rfl, rfl, fun e he => ?_⟩
  simp [EasyPloy, wrapResult, he]

/-- C3 witness: a concrete hit is returned as-is with the source
untouched, and a concrete miss with a failing source surfaces the source
error with the zero value at the Wrap level. -/
theorem easyPloy_spec_witness :
    EasyPloy 15000000000 (Except.ok ((7 : Int), 0))
      (fun _ => Except.error (Err.source 3))
      = { result := Except.ok 7, sourceCalls := [], refresh := none } ∧
    wrapResult 0 (EasyPloy 15000000000 (Except.error Err.keyNonExistent)
      (fun _ => Except.error (Err.source 3))).result = (0, some (Err.source 3)) :=
  ⟨(easyPloy_spec 15000000000 0 0 7 Err.keyNonExistent
      (fun _ => Except.error (Err.source 3))).1,
   (easyPloy_spec 15000000000 0 0 7 Err.keyNonExistent
      (fun _ => Except.error (Err.source 3))).2.2 (Err.source 3) rfl⟩

/-- C4: the First policy on a hit whose age is at least D returns the
current stale value with a nil error and no synchronous source call,
whatever the try-lock outcome; the detached refresh task is spawned
exactly when the try-lock is acquired and carries ttl = KeepTTL, a
deadline of D and a context with cancellation stripped; on a miss or
cache error the policy makes one synchronous source call with
ttl = KeepTTL and returns exactly its outcome. -/
theorem firstPloy_spec {V : Type} (expireTime now ts : Int) (v : V) (ce : Err)
    (queryRes : Int → Except Err V)
    (hage : expireTime ≤ (now - ts) * 1000000000) :
    (∀ lk : Bool,
      (FirstCachePolyIgnoreError expireTime now lk (Except.ok (v, ts)) queryRes).result
        = Except.ok v ∧
      (FirstCachePolyIgnoreError expireTime now lk (Except.ok (v, ts)) queryRes).sourceCalls
        = []) ∧
    (FirstCachePolyIgnoreError expireTime now true (Except.ok (v, ts)) queryRes).refresh
      = some { ttl := KeepTTL, timeout := expireTime, inheritsCancel := false } ∧
    (FirstCachePolyIgnoreError expireTime now false (Except.ok (v, ts)) queryRes).refresh
      = none ∧
    ∀ lk : Bool, FirstCachePolyIgnoreError expireTime now lk (Except.error ce) queryRes
      = { result := queryRes KeepTTL, sourceCalls := [KeepTTL], refresh := none } := by
  have hstale : ¬(now - ts < durSeconds expireTime) :=
    not_lt.mpr (durSeconds_le_of_ns_le hage)
  refine ⟨fun lk => ?_, ?_, ?_, fun lk => rfl⟩
  · cases lk <;> simp [FirstCachePolyIgnoreError, hstale]
  · simp [FirstCachePolyIgnoreError, hstale]
  · simp [FirstCachePolyIgnoreError, hstale]

/-- C4 witness: a concrete expired hit (age 70 s, D = 60 s) returns the
stale 7 under both try-lock outcomes, spawning the refresh only when the
lock is acquired, and a concrete miss returns the source error. -/
theorem firstPloy_spec_witness :
    (FirstCachePolyIgnoreError 60000000000 100 true (Except.ok ((7 : Int), 30))
      (fun _ => Except.error (Err.source 2))).result = Except.ok 7 ∧
    (FirstCachePolyIgnoreError 60000000000 100 true (Except.ok ((7 : Int), 30))
      (fun _ => Except.error (Err.source 2))).refresh
      = some { ttl := KeepTTL, timeout := 60000000000, inheritsCancel := false } ∧
    FirstCachePolyIgnoreError (V := Int) 60000000000 100 false
      (Except.error Err.keyNonExistent) (fun _ => Except.error (Err.source 2))
      = { result := Except.error (Err.source 2), sourceCalls := [KeepTTL],
          refresh := none } :=
  ⟨((firstPloy_spec 60000000000 100 30 7 Err.keyNonExistent
      (fun _ => Except.error (Err.source 2)) (by norm_num)).1 true).1,
   (firstPloy_spec 60000000000 100 30 7 Err.keyNonExistent
      (fun _ => Except.error (Err.source 2)) (by norm_num)).2.1,
   (firstPloy_spec 60000000000 100 30 7 Err.keyNonExistent
      (fun _ => Except.error (Err.source 2)) (by norm_num)).2.2.2 false⟩

/-- C5 counterexample: a successful source result 5 with a failing cache
write is returned with a nil error and the write was attempted, but the
loader closure emits no log entry at all, contradicting the claim that
the swallowed write error is logged. -/
theorem loadQuery_write_error_unlogged_cex :
    (buildTryLoadingQuery (Except.ok (5 : Int)) (some (Err.transport 0))
      (fun _ => false)).result = Except.ok 5 ∧
    (buildTryLoadingQuery (Except.ok (5 : Int)) (some (Err.transport 0))
      (fun _ => false)).setStoreCalled = true ∧
    (buildTryLoadingQuery (Except.ok (5 : Int)) (some (Err.transport 0))
      (fun _ => false)).logs = [] :=
  ⟨rfl, rfl, rfl⟩

/-- C5 amended: when the caller-supplied source function succeeds, the
source-loader calls SetStore and silently discards its error — without
logging it — so the loader returns the value with a nil error even if the
cache write fails; when the value is logically nil, the loader returns
the NilValue error, the write having been performed. -/
theorem loadQuery_swallows_write_error {V : Type} (v : V) (se : Option Err)
    (isNilV : V → Bool) :
    buildTryLoadingQuery (Except.ok v) se isNilV
      = buildTryLoadingQuery (Except.ok v) none isNilV ∧
    (buildTryLoadingQuery (Except.ok v) se isNilV).setStoreCalled = true ∧
    (buildTryLoadingQuery (Except.ok v) se isNilV).logs = [] ∧
    (isNilV v = false →
      (buildTryLoadingQuery (Except.ok v) se isNilV).result = Except.ok v) ∧
    (isNilV v = true →
      (buildTryLoadingQuery (Except.ok v) se isNilV).result
        = Except.error Err.nilValue) := by
  cases hnv : isNilV v <;> simp [buildTryLoadingQuery, hnv]

/-- C5 witness: a concrete successful source call with a failing cache
write behaves exactly as with a successful write and returns the value. -/
theorem loadQuery_swallows_write_error_witness :
    buildTryLoadingQuery (Except.ok (5 : Int)) (some (Err.transport 1))
        (fun _ => false)
      = buildTryLoadingQuery (Except.ok 5) none (fun _ => false) ∧
    (buildTryLoadingQuery (Except.ok (5 : Int)) (some (Err.transport 1))
      (fun _ => false)).result = Except.ok 5 :=
  ⟨(loadQuery_swallows_write_error 5 (some (Err.transport 1)) (fun _ => false)).1,
   (loadQuery_swallows_write_error 5 (some (Err.transport 1))
     (fun _ => false)).2.2.2.1 rfl⟩

/-- C6: SetStore followed by GetStore on the same key returns the value
unchanged, a nil error, and exactly the Unix-second clock at set time as
timestamp (hence within one second of the wall clock at set time), for
direct and serializing stores alike, whenever the per-type codec is
symmetric on the value — the requirement the spec places on the codec of
every value of the controller's type parameter. -/
theorem setStore_getStore_roundtrip {V : Type} (c : Ctr V) (st : StoreState V)
    (k : String) (v : V) (ttl now : Int) (hcodec : c.decT (c.encT v) = some v) :
    GetStore c (SetStore c st k v ttl now) k = (v, now, none) := by
  have hm := unmarshal_marshal c.decT c.encT c.dflt ⟨now, v⟩ hcodec
  cases hd : c.isDirect <;>
    simp [SetStore, GetStore, hd, storeGet_storeSet_self, hm]

/-- C6 witness: round-tripping 42 at time 1700000000 through a
serializing store and through a direct store returns it exactly. -/
theorem setStore_getStore_roundtrip_witness :
    GetStore (intCtr false) (SetStore (intCtr false) [] "k" 42 KeepTTL 1700000000)
      "k" = (42, 1700000000, none) ∧
    GetStore (intCtr true) (SetStore (intCtr true) [] "k" 42 5 1700000000)
      "k" = (42, 1700000000, none) :=
  ⟨setStore_getStore_roundtrip (intCtr false) [] "k" 42 KeepTTL 1700000000 rfl,
   setStore_getStore_roundtrip (intCtr true) [] "k" 42 5 1700000000 rfl⟩

/-- C7: every SetStore call stamps the stored Box with the Unix-second
clock at the moment of the write, so as long as the clock is positive no
write produces a Box with Timestamp 0; and the source-loader closure
performs the store write on every successful query. -/
theorem setStore_timestamps_now {V : Type} (c : Ctr V) (st : StoreState V)
    (k : String) (v : V) (ttl now : Int) (se : Option Err) (isNilV : V → Bool)
    (hnow : 0 < now) :
    storedTimestamp (SetStore c st k v ttl now) k = some now ∧
    storedTimestamp (SetStore c st k v ttl now) k ≠ some 0 ∧
    (buildTryLoadingQuery (Except.ok v) se isNilV).setStoreCalled = true := by
  have hts : storedTimestamp (SetStore c st k v ttl now) k = some now := by
    cases hd : c.isDirect <;>
      simp [SetStore, storedTimestamp, storeGet_storeSet_self, hd,
        payloadTimestamp, marshalBox]
  refine ⟨hts, ?_, ?_⟩
  · rw [hts]
    simp
    omega
  · cases hnv : isNilV v <;> simp [buildTryLoadingQuery, hnv]

/-- C7 witness: a concrete write at time 1700000000 stores exactly that
timestamp, which is not zero, in a serializing store. -/
theorem setStore_timestamps_now_witness :
    storedTimestamp (SetStore (intCtr false) [] "k" 42 KeepTTL 1700000000) "k"
      = some 1700000000 ∧
    storedTimestamp (SetStore (intCtr false) [] "k" 42 KeepTTL 1700000000) "k"
      ≠ some 0 :=
  ⟨(setStore_timestamps_now (intCtr false) [] "k" 42 KeepTTL 1700000000 none
      (fun _ => false) (by norm_num)).1,
   (setStore_timestamps_now (intCtr false) [] "k" 42 KeepTTL 1700000000 none
      (fun _ => false) (by norm_num)).2.1⟩

/-- C8 counterexample: a box with Timestamp 0 and value 7 read from the
cache is returned by the Easy policy as an ordinary valid hit, without
consulting the source — whereas an entry that was never written makes the
same policy call the source and return its 9.  The zero-timestamp entry
is therefore not treated as unusable. -/
theorem zero_timestamp_treated_as_hit_cex :
    (EasyPloy 1000000000 (Except.ok ((7 : Int), 0)) (fun _ => Except.ok 9)).result
      = Except.ok 7 ∧
    (EasyPloy 1000000000 (Except.ok ((7 : Int), 0))
      (fun _ => Except.ok 9)).sourceCalls = [] ∧
    (EasyPloy 1000000000 (Except.error Err.keyNonExistent)
      (fun _ => Except.ok 9)).result = Except.ok 9 :=
  ⟨rfl, rfl, rfl⟩

/-- C8 amended: no policy treats a Box with Timestamp 0 specially: Easy
returns such a hit unconditionally without calling the source, and Reuse
and First put it through the ordinary age comparison, so whenever now is
at least the truncated seconds of D the entry is handled as an expired
hit — stale value on source failure — rather than as never written. -/
theorem zero_timestamp_ordinary_rules {V : Type} (expireTime now : Int) (v : V)
    (e : Err) (queryRes : Int → Except Err V) (tryLockAcquired : Bool)
    (hnow : durSeconds expireTime ≤ now)
    (hq : queryRes KeepTTL = Except.error e) :
    EasyPloy expireTime (Except.ok (v, 0)) queryRes
      = { result := Except.ok v, sourceCalls := [], refresh := none } ∧
    ReuseCachePloyIgnoreError expireTime now (Except.ok (v, 0)) queryRes
      = { result := Except.ok v, sourceCalls := [KeepTTL], refresh := none } ∧
    (FirstCachePolyIgnoreError expireTime now tryLockAcquired
      (Except.ok (v, 0)) queryRes).result = Except.ok v := by
  have hstale : ¬(now < durSeconds expireTime) := not_lt.mpr hnow
  refine ⟨rfl, ?_, ?_⟩
  · simp [ReuseCachePloyIgnoreError, hstale, hq]
  · cases tryLockAcquired <;> simp [FirstCachePolyIgnoreError, hstale]

/-- C8 witness: with D = 1 s at time 100, a zero-timestamp box holding 7
is served as a hit by Easy and as an expired hit by Reuse and First. -/
theorem zero_timestamp_ordinary_rules_witness :
    EasyPloy 1000000000 (Except.ok ((7 : Int), 0))
      (fun _ => Except.error (Err.source 4))
      = { result := Except.ok 7, sourceCalls := [], refresh := none } ∧
    ReuseCachePloyIgnoreError 1000000000 100 (Except.ok ((7 : Int), 0))
      (fun _ => Except.error (Err.source 4))
      = { result := Except.ok 7, sourceCalls := [KeepTTL], refresh := none } ∧
    (FirstCachePolyIgnoreError 1000000000 100 false (Except.ok ((7 : Int), 0))
      (fun _ => Except.error (Err.source 4))).result = Except.ok 7 :=
  zero_timestamp_ordinary_rules 1000000000 100 7 (Err.source 4)
    (fun _ => Except.error (Err.source 4)) false (by norm_num [durSeconds]) rfl

/-- C9 counterexample: a serialized payload whose JSON object carries the
unknown field "extra" besides "T" and "Timestamp" is decoded successfully
by GetStore — value 1, timestamp 5, nil error — rather than rejected with
an unpacking error. -/
theorem unknown_field_decodes_cex :
    GetStore (intCtr false)
      [("k", Payload.jstr (Json.obj
        [("Timestamp", Json.num 5), ("T", Json.num 1), ("extra", Json.num 9)]))]
      "k" = (1, 5, none) := rfl

/-- C9 amended: when the store is non-direct, decoding a serialized Box
accepts rather than rejects unknown fields, as encoding/json-compatible
unmarshalling does: a trailing field whose name matches neither "T" nor
"Timestamp", not even ASCII-case-insensitively, leaves the result of
GetStore unchanged (a case-variant name such as "timestamp" is instead
matched to the field it folds to). -/
theorem unknown_fields_ignored {V : Type} (c : Ctr V) (st : StoreState V)
    (k : String) (fs : List (String × Json)) (name : String) (j : Json)
    (ttl : Int) (hdl : c.isDirect = false) (h1 : foldName name ≠ "timestamp")
    (h2 : foldName name ≠ "t") :
    GetStore c (storeSet st k (Payload.jstr (Json.obj (fs ++ [(name, j)]))) ttl) k
      = GetStore c (storeSet st k (Payload.jstr (Json.obj fs)) ttl) k := by
  simp [GetStore, storeGet_storeSet_self, hdl, unmarshalBox,
    unmarshalFields_unknown_snoc c.decT name j h1 h2]

/-- C9 witness: appending the unknown field "extra" to a concrete
serialized box leaves the GetStore result unchanged. -/
theorem unknown_fields_ignored_witness :
    GetStore (intCtr false)
      (storeSet [] "k" (Payload.jstr (Json.obj
        ([("Timestamp", Json.num 5), ("T", Json.num 1)] ++ [("extra", Json.num 9)])))
        KeepTTL) "k"
      = GetStore (intCtr false)
        (storeSet [] "k" (Payload.jstr (Json.obj
          [("Timestamp", Json.num 5), ("T", Json.num 1)])) KeepTTL) "k" :=
  unknown_fields_ignored (intCtr false) [] "k"
    [("Timestamp", Json.num 5), ("T", Json.num 1)] "extra" (Json.num 9)
    KeepTTL rfl (by decide) (by decide)

/-- C10: whenever GetStore returns a non-nil error — key missing,
transport fault, type-assertion failure or deserialization failure — the
value it returns is exactly the zero value of the controller's type and
the timestamp is exactly 0. -/
theorem getStore_zero_on_error {V : Type} (c : Ctr V) (st : StoreState V)
    (k : String) (e : Err) (h : (GetStore c st k).2.2 = some e) :
    (GetStore c st k).1 = c.dflt ∧ (GetStore c st k).2.1 = 0 := by
  unfold GetStore at h ⊢
  cases hg : storeGet st k with
  | error e2 => simp
  | ok p =>
    cases hd : c.isDirect with
    | true => cases p <;> simp_all
    | false =>
      cases p with
      | box b => simp_all
      | other => simp_all
      | jstr j => cases hu : unmarshalBox c.decT c.dflt j <;> simp_all

/-- C10 witness: reading a missing key from an empty direct store yields
the zero value, timestamp 0 and the key-missing error. -/
theorem getStore_zero_on_error_witness :
    (GetStore (intCtr true) [] "nope").1 = 0 ∧
    (GetStore (intCtr true) [] "nope").2.1 = 0 :=
  getStore_zero_on_error (intCtr true) [] "nope" Err.keyNonExistent rfl

end Modecache
